import Mathlib

/-!
Verification of the ship-detection-pipeline repository: a shallow embedding
of the reverse proxy (server.js), the web client status-polling and
submission logic (ShipDetection.vue, ImageSearch.vue), the deployment
constants (cogger Makefile), and — where the backend Python services are
absent from the corpus — models written from the specification, against
the natural-language specification of the system.
-/

namespace ShipPipeline

/-! ## JavaScript-style helpers

`jsOr o d` models the JavaScript expression `o || d` on string-valued
environment variables and object fields: `undefined` (`none`) and the
empty string are both falsy. -/

def jsOr (o : Option String) (d : String) : String :=
  match o with
  | some s => if s = "" then d else s
  | none => d

/-- JavaScript truthiness of an optional string: `undefined` and `""` are
falsy, every other string is truthy. -/
def truthy (o : Option String) : Bool :=
  match o with
  | some s => !(s == "")
  | none => false

/-! ## Reverse proxy (server.js, `src/unnamed/part_002`) -/

/-- The environment variables the proxy server reads
(`process.env.VITE_API_URL`, `VITE_COGGER_URL`, `VITE_TITILER_URL`,
`API_KEY`); `none` models an unset variable. -/
structure ProxyEnv where
  viteApiUrl : Option String
  viteCoggerUrl : Option String
  viteTitilerUrl : Option String
  apiKey : Option String

/-- An incoming HTTP request as seen by the proxy middleware. -/
structure Request where
  method : String
  path : String
  originalUrl : String
  body : Option String

/-- `proxyReq.setHeader(k, v)`: replaces any existing header named `k`. -/
def setHeader (k v : String) (hs : List (String × String)) :
    List (String × String) :=
  (k, v) :: hs.filter (fun p => !(p.fst == k))

/-- The `onProxyReq` callback of `createProxyWithAuth` (server.js lines
44-66): sets `Host`, `Origin`, `X-API-Key` (from `process.env.API_KEY || ''`)
and `Connection` on the outgoing request, and for a POST with a body also
`Content-Type` and `Content-Length`. `targetHost` models `targetUrl.host`.
Returns the headers of the forwarded request, starting from the headers
`hs` already present on the proxy request. -/
def onProxyReq (target targetHost : String) (env : ProxyEnv) (req : Request)
    (hs : List (String × String)) : List (String × String) :=
  let h1 := setHeader "Host" targetHost hs
  let h2 := setHeader "Origin" target h1
  let h3 := setHeader "X-API-Key" (jsOr env.apiKey "") h2
  let h4 := setHeader "Connection" "keep-alive" h3
  match req.method, req.body with
  | "POST", some bodyData =>
      setHeader "Content-Length" (toString bodyData.length)
        (setHeader "Content-Type" "application/json" h4)
  | _, _ => h4

/-- A JSON value, as much of it as the embedded handlers construct. -/
inductive Jv where
  | str (s : String)
  | obj (fields : List (String × Jv))

/-- Field lookup in a JSON object; `none` on a non-object or missing key. -/
def Jv.get (v : Jv) (k : String) : Option Jv :=
  match v with
  | .obj fields => fields.lookup k
  | _ => none

/-- The response the proxy synthesizes when forwarding fails. -/
structure ProxyErrorResponse where
  status : Nat
  body : Jv

/-- The error object handed to `onError`; `message` may be absent. -/
structure JsError where
  message : Option String

/-- The `onError` callback of `createProxyWithAuth` (server.js lines
67-84): always answers the client with HTTP 504 and a JSON object with
an `error` label, a `message` (`err.message || 'Failed to connect to the
target server'`) and a `details` object echoing the target and request. -/
def onError (target : String) (err : JsError) (req : Request) :
    ProxyErrorResponse :=
  { status := 504
  , body := .obj
      [ ("error", .str "Proxy Error")
      , ("message", .str (jsOr err.message "Failed to connect to the target server"))
      , ("details", .obj
          [ ("target", .str target)
          , ("path", .str req.path)
          , ("originalUrl", .str req.originalUrl)
          , ("method", .str req.method) ]) ] }

/-- Boolean test that the first list begins with the second (character
lists; used to model anchored `^pattern` regex matches structurally). -/
def beginsWith : List Char → List Char → Bool
  | _, [] => true
  | [], _ :: _ => false
  | a :: as, p :: ps => a == p && beginsWith as ps

/-- Boolean test that the first list ends with the second. -/
def endsWithChars (s suffix : List Char) : Bool :=
  beginsWith s.reverse suffix.reverse

/-- `VITE_API_URL.replace(/\/api\/?$/, '')` (server.js line 137): removes a
trailing `/api` or `/api/` from the API base URL. -/
def stripApiSuffix (s : String) : String :=
  if endsWithChars s.data "/api/".data then String.mk (s.data.take (s.data.length - 5))
  else if endsWithChars s.data "/api".data then String.mk (s.data.take (s.data.length - 4))
  else s

/-- The `pathRewrite` of `createProxyWithAuth` (server.js lines 25-34),
specialised to the anchored rules the proxy is configured with
(`'^/proxy/': ''`, `'^/proxy/cogger/': ''`, `'^/proxy/titiler/': ''`):
`path.replace(new RegExp("^" ++ pat), repl)` removes the pattern from the
front of the path when it matches and leaves the path unchanged
otherwise. -/
def applyAnchoredRewrite (pat repl path : String) : String :=
  if beginsWith path.data pat.data then repl ++ String.mk (path.data.drop pat.data.length)
  else path

/-- A registered proxy route: the mount path and the backend target URL. -/
structure ProxyRoute where
  mount : String
  target : String
deriving DecidableEq

/-- `setupProxy` (server.js lines 119-147): exits the process with code 1
if any of `VITE_API_URL`, `VITE_COGGER_URL`, `VITE_TITILER_URL`, `API_KEY`
is unset (falsy), otherwise registers the three proxy routes. The
`Except Nat` result models `process.exit(1)` as `.error 1` and a serving
server as `.ok` with the registered routes. -/
def setupProxy (env : ProxyEnv) : Except Nat (List ProxyRoute) :=
  if !truthy env.viteApiUrl then .error 1
  else if !truthy env.viteCoggerUrl then .error 1
  else if !truthy env.viteTitilerUrl then .error 1
  else if !truthy env.apiKey then .error 1
  else .ok
    [ { mount := "/proxy/api", target := stripApiSuffix (jsOr env.viteApiUrl "") }
    , { mount := "/proxy/cogger", target := jsOr env.viteCoggerUrl "" }
    , { mount := "/proxy/titiler", target := jsOr env.viteTitilerUrl "" } ]

/-- The proxy timeout configured on every proxy created by
`createProxyWithAuth` (server.js lines 36-37): `3660000` milliseconds. -/
def proxyTimeoutMs : Nat := 3660000

/-- The Cloud Run deployment timeout of the conversion service
(cogger Makefile, `gcloud run deploy ... --timeout 3600`): 3600 seconds. -/
def coggerDeployTimeoutSeconds : Nat := 3600

/-- The Cloud Run deployment concurrency of the conversion service
(cogger Makefile, `--concurrency 1`). -/
def coggerDeployConcurrency : Nat := 1

/-! ## Client status polling (ShipDetection.vue `checkCogStatus` /
`startStatusPolling`; the same code appears in `src/unnamed/part_003`) -/

/-- The outcome of the `fetch` in `checkCogStatus`: a network error (the
promise rejects), or a response with an `ok` flag and a body; `none` for
the body models a body on which `response.json()` throws, `some fields`
a parsed JSON object with string-valued fields. -/
inductive FetchResult where
  | netError
  | response (ok : Bool) (body : Option (List (String × String)))

/-- What one call of `checkCogStatus` produces: the value returned to the
caller and whether the call cleared the polling interval. -/
structure PollResult where
  value : List (String × String)
  stopPolling : Bool
deriving DecidableEq

/-- `checkCogStatus` (ShipDetection.vue lines 307-341): a network error, a
non-OK response (`throw` on `!response.ok`) and a JSON parse failure all
land in the `catch` and return `{ status: 'error' }` without clearing the
interval; a parsed OK body is returned as-is, and the interval is cleared
exactly when `data.status === 'ready'`. -/
def checkCogStatus : FetchResult → PollResult
  | .netError => { value := [("status", "error")], stopPolling := false }
  | .response ok body =>
      if ok then
        match body with
        | some fields =>
            { value := fields
            , stopPolling := fields.lookup "status" == some "ready" }
        | none => { value := [("status", "error")], stopPolling := false }
      else { value := [("status", "error")], stopPolling := false }

/-- The status string a poll observes: the `status` field of a parsed OK
body; failures observe nothing. -/
def observedStatus : FetchResult → Option String
  | .response true (some fields) => fields.lookup "status"
  | _ => none

/-- Classifies the fetch outcomes that land in `checkCogStatus`'s `catch`
block: a network error, a non-OK response, or an unparseable body. -/
def isFailure : FetchResult → Bool
  | .netError => true
  | .response ok body => !ok || body.isNone

/-- The polling period of `startStatusPolling` (ShipDetection.vue line
355, `setInterval(checkCogStatus, 5000)`): 5000 milliseconds. -/
def pollIntervalMs : Nat := 5000

/-- The URL path requested by `checkCogStatus` (ShipDetection.vue line
313): the browser asks the reverse proxy at
`/proxy/titiler/cog/status/{identifier}`. -/
def checkCogStatusPath (identifier : String) : String :=
  "/proxy/titiler/cog/status/" ++ identifier

/-- The status URL built by the direct-to-titiler variant of
`checkCogStatus` (`src/unnamed/part_003` line 253):
`` `${config.titilerUrl}/cog/status/${identifier}` ``. -/
def titilerStatusUrl (titilerUrl identifier : String) : String :=
  titilerUrl ++ "/cog/status/" ++ identifier

/-! ## Conversion submission (ImageSearch.vue `ingestImage`) -/

/-- An HTTP request issued by the web client. -/
structure HttpRequest where
  method : String
  url : String
  bodyFields : List (String × String)

/-- The conversion submission built by `ingestImage` (ImageSearch.vue
lines 195-248): a POST to `` `${config.coggerUrl}/convert` `` whose JSON
body is `{ sentinel_id: selectedImage.identifier }`. The cogger Makefile
test targets (`test-full`, `docker-test-full`, `gcloud-test-full`) POST
the same `{"sentinel_id": ...}` body to `/convert`. -/
def ingestConvertRequest (coggerUrl identifier : String) : HttpRequest :=
  { method := "POST"
  , url := coggerUrl ++ "/convert"
  , bodyFields := [("sentinel_id", identifier)] }

/-! ## Geographic bounds and their client-side readers -/

/-- Modelled from the spec: the titiler info endpoint implementation
(titiler `app/main.py`) is not part of the corpus; only its callers and
Makefile tests are. Per §3 and §4.6 of the spec, a `RasterArtifact`
carries geographic bounds west, south, east, north with `west < east` and
`south < north`. Coordinates are modelled as rationals. -/
structure RasterArtifact where
  west : Rat
  south : Rat
  east : Rat
  north : Rat
  westLtEast : west < east
  southLtNorth : south < north

/-- Modelled from the spec: the `geographic_bounds` field of the
`GET /info/{bucket}/{path}` response is the four-element array
`[west, south, east, north]` of the artifact (spec §6 and §8). -/
def infoGeographicBounds (a : RasterArtifact) : List Rat :=
  [a.west, a.south, a.east, a.north]

/-- How `getImageBounds` (ShipDetection.vue lines 383-387) reads the
`geographic_bounds` array `gb`: it builds the Leaflet corner pair
`[[gb[1], gb[0]], [gb[3], gb[2]]]`, i.e. southwest `[lat, lng]` then
northeast `[lat, lng]`. -/
def getImageBoundsCorners (gb : List Rat) : (Rat × Rat) × (Rat × Rat) :=
  ((gb.getD 1 0, gb.getD 0 0), (gb.getD 3 0, gb.getD 2 0))

/-- How `loadCOG` (the static COG viewer in `src/unnamed/part_001`, lines
672-681) reads the array: `const [west, south, east, north] =
info.geographic_bounds`, then fits `[[west, south], [east, north]]`
(lon-lat order). -/
def loadCOGCorners (gb : List Rat) : (Rat × Rat) × (Rat × Rat) :=
  ((gb.getD 0 0, gb.getD 1 0), (gb.getD 2 0, gb.getD 3 0))

/-! ## Ingestion Orchestrator (modelled from the spec) -/

/-- The job lifecycle states of the Job Ledger (spec §3). -/
inductive JobStatus where
  | notAvailable
  | processing
  | ready
  | jobError
deriving DecidableEq

/-- The Job Ledger: a keyed store from `source_id` to job status. -/
def Ledger := List (String × JobStatus)

/-- Reading the ledger: an absent key is `NOT_AVAILABLE` (spec §4.5). -/
def getStatus (l : Ledger) (sid : String) : JobStatus :=
  (l.lookup sid).getD .notAvailable

/-- Conditional keyed write to the ledger (spec §4.1, §9). -/
def setStatus (l : Ledger) (sid : String) (st : JobStatus) : Ledger :=
  (sid, st) :: l.filter (fun p => !(p.fst == sid))

/-- The result of a `submit` call: the ledger afterwards, whether a new
pipeline execution was started, and the job handle returned. -/
structure SubmitResult where
  ledger : Ledger
  startedPipeline : Bool
  handle : JobStatus

/-- Modelled from the spec: the Ingestion Orchestrator (cogger
`app/main.py`) is not part of the corpus; only its Dockerfile, Makefile
and HTTP callers are. Per spec §4.1, `submit(source_id)`: if the job is
PROCESSING, return the existing handle without starting new work; if
READY, return the artifact immediately; otherwise atomically mark the job
PROCESSING and start the pipeline. -/
def submit (l : Ledger) (sid : String) : SubmitResult :=
  match getStatus l sid with
  | .processing => { ledger := l, startedPipeline := false, handle := .processing }
  | .ready => { ledger := l, startedPipeline := false, handle := .ready }
  | _ => { ledger := setStatus l sid .processing, startedPipeline := true
         , handle := .processing }

/-! ## Sample values used by witnesses -/

/-- A fully configured proxy environment. -/
def envSample : ProxyEnv :=
  { viteApiUrl := some "https://api.example/api"
  , viteCoggerUrl := some "https://cogger.example"
  , viteTitilerUrl := some "https://titiler.example"
  , apiKey := some "secret-key" }

/-- A proxy environment with `VITE_API_URL` unset. -/
def envNoApiUrl : ProxyEnv :=
  { viteApiUrl := none
  , viteCoggerUrl := some "https://cogger.example"
  , viteTitilerUrl := some "https://titiler.example"
  , apiKey := some "secret-key" }

/-- A sample client request as seen by the proxy. -/
def reqSample : Request :=
  { method := "GET"
  , path := "/proxy/titiler/cog/status/scene-A"
  , originalUrl := "/proxy/titiler/cog/status/scene-A"
  , body := none }

/-- A ledger holding one in-flight job. -/
def ledgerSample : Ledger := [("scene-A", JobStatus.processing)]

/-- A sample raster artifact with well-ordered bounds. -/
def artifactSample : RasterArtifact :=
  { west := 0, south := 0, east := 1, north := 1
  , westLtEast := by norm_num, southLtNorth := by norm_num }

/-! ## Helper lemmas -/

/-- Removing all entries keyed `k2` does not change the result of looking
up a different key `k`. -/
theorem lookup_filter_ne (k k2 : String) (h : ¬ k = k2)
    (hs : List (String × String)) :
    (hs.filter (fun p => !(p.fst == k2))).lookup k = hs.lookup k := by
  induction hs with
  | nil => rfl
  | cons p t ih =>
      obtain ⟨a, b⟩ := p
      by_cases ha : a = k2
      · subst ha
        rw [List.filter_cons_of_neg (by simp)]
        rw [ih]
        have h2 : (k == a) = false := by
          cases hak : (k == a) with
          | true => exact absurd (eq_of_beq hak) h
          | false => rfl
        simp [List.lookup, h2]
      · rw [List.filter_cons_of_pos (by simp [ha])]
        cases hak : (k == a) with
        | true => simp [List.lookup, hak]
        | false => simp [List.lookup, hak, ih]

/-- Looking up the key just set by `setHeader` yields the new value. -/
theorem lookup_setHeader_self (k v : String) (hs : List (String × String)) :
    (setHeader k v hs).lookup k = some v := by
  simp [setHeader, List.lookup]

/-- Setting a different header does not change the result of a lookup. -/
theorem lookup_setHeader_ne (k k2 v : String) (h : ¬ k = k2)
    (hs : List (String × String)) :
    (setHeader k2 v hs).lookup k = hs.lookup k := by
  have h2 : (k == k2) = false := by
    cases hk : (k == k2) with
    | true => exact absurd (eq_of_beq hk) h
    | false => rfl
  simp only [setHeader, List.lookup, h2]
  exact lookup_filter_ne k k2 h hs

/-- Every request transformed by `onProxyReq` carries the `X-API-Key`
header with the value `process.env.API_KEY || ''`. -/
theorem lookup_onProxyReq (target targetHost : String) (env : ProxyEnv)
    (req : Request) (hs : List (String × String)) :
    (onProxyReq target targetHost env req hs).lookup "X-API-Key"
      = some (jsOr env.apiKey "") := by
  unfold onProxyReq
  split
  · rw [lookup_setHeader_ne _ _ _ (by decide), lookup_setHeader_ne _ _ _ (by decide),
      lookup_setHeader_ne _ _ _ (by decide), lookup_setHeader_self]
  · rw [lookup_setHeader_ne _ _ _ (by decide), lookup_setHeader_self]

/-- A serving proxy (one whose `setupProxy` did not exit) has all four
environment variables truthy. -/
theorem setupProxy_ok_truthy (env : ProxyEnv) (routes : List ProxyRoute)
    (h : setupProxy env = .ok routes) :
    truthy env.viteApiUrl = true ∧ truthy env.viteCoggerUrl = true ∧
      truthy env.viteTitilerUrl = true ∧ truthy env.apiKey = true := by
  unfold setupProxy at h
  cases h1 : truthy env.viteApiUrl with
  | false => simp [h1] at h
  | true =>
    cases h2 : truthy env.viteCoggerUrl with
    | false => simp [h1, h2] at h
    | true =>
      cases h3 : truthy env.viteTitilerUrl with
      | false => simp [h1, h2, h3] at h
      | true =>
        cases h4 : truthy env.apiKey with
        | false => simp [h1, h2, h3, h4] at h
        | true => exact ⟨rfl, rfl, rfl, rfl⟩

/-- A truthy optional string is a set, non-empty string, and `|| ''`
returns it unchanged. -/
theorem truthy_spec (o : Option String) (h : truthy o = true) :
    o = some (jsOr o "") ∧ jsOr o "" ≠ "" := by
  match o with
  | none => exact absurd h (by simp [truthy])
  | some s =>
      have hs : ¬ s = "" := by
        intro he
        subst he
        simp [truthy] at h
      simp [jsOr, hs]

/-- A truthy optional string is set. -/
theorem isSome_of_truthy (o : Option String) (h : truthy o = true) :
    o.isSome := by
  match o with
  | none => exact absurd h (by simp [truthy])
  | some s => rfl

/-- Every falsy required environment variable makes `setupProxy` exit the
process with code 1 (registering no route). -/
theorem setupProxy_error_of_falsy (env : ProxyEnv)
    (h : truthy env.viteApiUrl = false ∨ truthy env.viteCoggerUrl = false ∨
      truthy env.viteTitilerUrl = false ∨ truthy env.apiKey = false) :
    setupProxy env = .error 1 := by
  unfold setupProxy
  cases hA : truthy env.viteApiUrl with
  | false => simp [hA]
  | true =>
    cases hC : truthy env.viteCoggerUrl with
    | false => simp [hA, hC]
    | true =>
      cases hT : truthy env.viteTitilerUrl with
      | false => simp [hA, hC, hT]
      | true =>
        cases hK : truthy env.apiKey with
        | false => simp [hA, hC, hT, hK]
        | true => rcases h with h | h | h | h <;> simp_all

/-! ## Claims -/

/-- C1: For every `source_id`, a `submit` call made while a job for that
`source_id` has status PROCESSING returns the existing job handle and
does not start a second pipeline execution for that `source_id`: the
ledger is unchanged, no pipeline is started, and the returned handle is
the existing PROCESSING job (single-flight). -/
theorem C1_single_flight (l : Ledger) (sid : String)
    (h : getStatus l sid = .processing) :
    (submit l sid).startedPipeline = false ∧ (submit l sid).ledger = l ∧
      (submit l sid).handle = getStatus l sid := by
  simp [submit, h]

/-- Witness for C1 on a one-job ledger whose job is PROCESSING. -/
theorem C1_single_flight_witness :
    getStatus ledgerSample "scene-A" = JobStatus.processing ∧
    ((submit ledgerSample "scene-A").startedPipeline = false ∧
      (submit ledgerSample "scene-A").ledger = ledgerSample ∧
      (submit ledgerSample "scene-A").handle = getStatus ledgerSample "scene-A") :=
  ⟨rfl, C1_single_flight ledgerSample "scene-A" rfl⟩

/-- C2 (counterexample): observing the terminal status `error` does not
stop the polling loop — `checkCogStatus` clears the interval only on
`'ready'`, so a poll that sees `{status: 'error'}` leaves polling
running, contradicting the claim that polling stops on both READY and
ERROR. -/
theorem C2_counterexample :
    observedStatus (FetchResult.response true (some [("status", "error")]))
        = some "error" ∧
      (checkCogStatus
        (FetchResult.response true (some [("status", "error")]))).stopPolling
        = false :=
  ⟨rfl, rfl⟩

/-- C2 (amended): the client polls every 5000 ms and stops polling exactly
when it observes status `'ready'`; it keeps polling on every other
outcome, including an observed `'error'` status and fetch failures. -/
theorem C2_poll_stop_iff_ready :
    pollIntervalMs = 5000 ∧
      ∀ r : FetchResult,
        ((checkCogStatus r).stopPolling = true ↔ observedStatus r = some "ready") := by
  refine ⟨rfl, ?_⟩
  intro r
  match r with
  | .netError => simp [checkCogStatus, observedStatus]
  | .response true (some fields) => simp [checkCogStatus, observedStatus]
  | .response true none => simp [checkCogStatus, observedStatus]
  | .response false body => cases body <;> simp [checkCogStatus, observedStatus]

/-- C3: every request the reverse proxy forwards to a registered backend
(api, cogger or titiler) carries the `X-API-Key` header set to the
configured API key, which on a serving proxy is set and non-empty. -/
theorem C3_forwarded_requests_authenticated (env : ProxyEnv)
    (routes : List ProxyRoute) (route : ProxyRoute) (targetHost : String)
    (req : Request) (hs : List (String × String))
    (hserve : setupProxy env = .ok routes) (_hr : route ∈ routes) :
    env.apiKey = some (jsOr env.apiKey "") ∧ jsOr env.apiKey "" ≠ "" ∧
      (onProxyReq route.target targetHost env req hs).lookup "X-API-Key"
        = some (jsOr env.apiKey "") := by
  obtain ⟨-, -, -, hK⟩ := setupProxy_ok_truthy env routes hserve
  obtain ⟨h1, h2⟩ := truthy_spec env.apiKey hK
  exact ⟨h1, h2, lookup_onProxyReq _ _ _ _ _⟩

/-- Witness for C3 on the configured sample environment and the titiler
route. -/
theorem C3_forwarded_requests_authenticated_witness :
    envSample.apiKey = some (jsOr envSample.apiKey "") ∧
      jsOr envSample.apiKey "" ≠ "" ∧
      (onProxyReq (ProxyRoute.mk "/proxy/titiler" "https://titiler.example").target
          "titiler.example" envSample reqSample []).lookup "X-API-Key"
        = some (jsOr envSample.apiKey "") :=
  C3_forwarded_requests_authenticated envSample _
    (ProxyRoute.mk "/proxy/titiler" "https://titiler.example")
    "titiler.example" reqSample [] rfl (by decide)

/-- C4: the conversion service is deployed with a 3600-second (one hour)
end-to-end timeout, and the reverse proxy's request timeout of 3660000
milliseconds strictly exceeds that budget. -/
theorem C4_proxy_timeout_exceeds_budget :
    coggerDeployTimeoutSeconds = 3600 ∧
      coggerDeployTimeoutSeconds * 1000 < proxyTimeoutMs := by
  decide

/-- C5 (counterexample): the conversion submission the client builds for
identifier `scene-A` carries no `source_id` field in its JSON body; the
identifier travels under the key `sentinel_id`. -/
theorem C5_counterexample :
    (ingestConvertRequest "https://cogger.example" "scene-A").bodyFields.lookup
        "source_id" = none ∧
      (ingestConvertRequest "https://cogger.example" "scene-A").bodyFields.lookup
        "sentinel_id" = some "scene-A" :=
  ⟨rfl, rfl⟩

/-- C5 (amended): every conversion submission issued by the client is a
POST to the `/convert` endpoint whose JSON body carries the source-image
identifier under the key `sentinel_id`. -/
theorem C5_convert_request_shape (coggerUrl identifier : String) :
    (ingestConvertRequest coggerUrl identifier).method = "POST" ∧
      (ingestConvertRequest coggerUrl identifier).url = coggerUrl ++ "/convert" ∧
      (ingestConvertRequest coggerUrl identifier).bodyFields.lookup "sentinel_id"
        = some identifier :=
  ⟨rfl, rfl, rfl⟩

/-- C6 (counterexample): the path the client requests when polling the
status of `scene-A` is not `/status/scene-A`; the status endpoint is not
addressed at a bare `/status/` path. -/
theorem C6_counterexample :
    checkCogStatusPath "scene-A" ≠ "/status/" ++ "scene-A" := by
  decide

/-- C6 (amended): the client polls the status endpoint under the `/cog/`
path of the titiler service: the browser requests
`/proxy/titiler/cog/status/{id}`, the proxy rewrite hands the titiler
backend `cog/status/{id}`, and the direct-to-titiler client requests
`{titilerUrl}/cog/status/{id}`. -/
theorem C6_status_path (identifier : String) :
    checkCogStatusPath identifier
        = "/proxy/titiler/" ++ ("cog/status/" ++ identifier) ∧
      applyAnchoredRewrite "/proxy/titiler/" "" (checkCogStatusPath identifier)
        = "cog/status/" ++ identifier ∧
      titilerStatusUrl "https://titiler.example" identifier
        = "https://titiler.example/cog/status/" ++ identifier :=
  ⟨rfl, rfl, rfl⟩

/-- C7: the `geographic_bounds` field of an info response is the
four-element array [west, south, east, north] with west < east and
south < north, and both clients read element 0 as west, 1 as south, 2 as
east and 3 as north: the Leaflet client builds southwest `[south, west]`
and northeast `[north, east]` corners, the MapLibre viewer destructures
`[west, south, east, north]` directly. -/
theorem C7_geographic_bounds_order (a : RasterArtifact) :
    (infoGeographicBounds a).length = 4 ∧
      (infoGeographicBounds a).getD 0 0 = a.west ∧
      (infoGeographicBounds a).getD 1 0 = a.south ∧
      (infoGeographicBounds a).getD 2 0 = a.east ∧
      (infoGeographicBounds a).getD 3 0 = a.north ∧
      a.west < a.east ∧ a.south < a.north ∧
      loadCOGCorners (infoGeographicBounds a)
        = ((a.west, a.south), (a.east, a.north)) ∧
      getImageBoundsCorners (infoGeographicBounds a)
        = ((a.south, a.west), (a.north, a.east)) :=
  ⟨rfl, rfl, rfl, rfl, rfl, a.westLtEast, a.southLtNorth, rfl, rfl⟩

/-- Witness for C7 on a concrete artifact. -/
theorem C7_geographic_bounds_order_witness :
    (infoGeographicBounds artifactSample).length = 4 ∧
      (infoGeographicBounds artifactSample).getD 0 0 = artifactSample.west ∧
      (infoGeographicBounds artifactSample).getD 1 0 = artifactSample.south ∧
      (infoGeographicBounds artifactSample).getD 2 0 = artifactSample.east ∧
      (infoGeographicBounds artifactSample).getD 3 0 = artifactSample.north ∧
      artifactSample.west < artifactSample.east ∧
      artifactSample.south < artifactSample.north ∧
      loadCOGCorners (infoGeographicBounds artifactSample)
        = ((artifactSample.west, artifactSample.south),
           (artifactSample.east, artifactSample.north)) ∧
      getImageBoundsCorners (infoGeographicBounds artifactSample)
        = ((artifactSample.south, artifactSample.west),
           (artifactSample.north, artifactSample.east)) :=
  C7_geographic_bounds_order artifactSample

/-- C8 (counterexample): an OK response whose body is the valid JSON
object `{}` makes `checkCogStatus` return the parsed body as-is, a value
with no `status` field at all, refuting the claim that every input yields
a value containing a `status` field. -/
theorem C8_counterexample :
    (checkCogStatus (FetchResult.response true (some []))).value.lookup "status"
      = none :=
  rfl

/-- C8 (amended): the status query never propagates an exception: every
failure the `catch` block sees (network error, non-OK response, JSON
parse failure) yields exactly `{status: 'error'}`, while a parseable OK
body is returned unchanged — so the result carries a `status` field only
when the server body does. -/
theorem C8_status_query_never_throws (r : FetchResult) :
    (isFailure r = true → (checkCogStatus r).value = [("status", "error")]) ∧
      ∀ fields, r = FetchResult.response true (some fields) →
        (checkCogStatus r).value = fields := by
  constructor
  · intro h
    match r with
    | .netError => rfl
    | .response true (some fields) => simp [isFailure] at h
    | .response true none => rfl
    | .response false body => cases body <;> rfl
  · rintro fields rfl
    rfl

/-- Witness for C8 at a network error and at a parsed OK body. -/
theorem C8_status_query_never_throws_witness :
    (checkCogStatus FetchResult.netError).value = [("status", "error")] ∧
      (checkCogStatus (FetchResult.response true (some [("status", "processing")]))).value
        = [("status", "processing")] :=
  ⟨(C8_status_query_never_throws FetchResult.netError).1 rfl,
   (C8_status_query_never_throws
      (FetchResult.response true (some [("status", "processing")]))).2
      [("status", "processing")] rfl⟩

/-- C9: whenever forwarding fails, the proxy answers the client with HTTP
504 and a JSON body containing `error`, `message` and `details` fields,
for every target, error and request. -/
theorem C9_proxy_error_response (target : String) (err : JsError)
    (req : Request) :
    (onError target err req).status = 504 ∧
      ((onError target err req).body.get "error").isSome ∧
      ((onError target err req).body.get "message").isSome ∧
      ((onError target err req).body.get "details").isSome :=
  ⟨rfl, rfl, rfl, rfl⟩

/-- C10: if any of the four required environment variables is unset,
`setupProxy` exits with code 1 and registers no route; and whenever the
server is serving (`setupProxy` returned routes), all four variables are
set and every injected `X-API-Key` header value is the configured,
non-empty key. -/
theorem C10_env_guard :
    (∀ env : ProxyEnv,
        env.viteApiUrl = none ∨ env.viteCoggerUrl = none ∨
            env.viteTitilerUrl = none ∨ env.apiKey = none →
          setupProxy env = .error 1) ∧
      ∀ (env : ProxyEnv) (routes : List ProxyRoute),
        setupProxy env = .ok routes →
          env.viteApiUrl.isSome ∧ env.viteCoggerUrl.isSome ∧
            env.viteTitilerUrl.isSome ∧ env.apiKey.isSome ∧
            jsOr env.apiKey "" ≠ "" ∧
            ∀ target targetHost req hs,
              (onProxyReq target targetHost env req hs).lookup "X-API-Key"
                = some (jsOr env.apiKey "") := by
  constructor
  · intro env h
    apply setupProxy_error_of_falsy
    rcases h with h | h | h | h <;> simp [truthy, h]
  · intro env routes h
    obtain ⟨hA, hC, hT, hK⟩ := setupProxy_ok_truthy env routes h
    obtain ⟨-, hk2⟩ := truthy_spec env.apiKey hK
    exact ⟨isSome_of_truthy _ hA, isSome_of_truthy _ hC, isSome_of_truthy _ hT,
      isSome_of_truthy _ hK, hk2,
      fun target targetHost req hs => lookup_onProxyReq _ _ _ _ _⟩

/-- Witness for C10: an environment missing `VITE_API_URL` exits with
code 1, and on the fully configured sample environment the injected
header is the non-empty configured key. -/
theorem C10_env_guard_witness :
    setupProxy envNoApiUrl = Except.error 1 ∧
      jsOr envSample.apiKey "" ≠ "" ∧
      (onProxyReq "https://titiler.example" "titiler.example" envSample
          reqSample []).lookup "X-API-Key" = some (jsOr envSample.apiKey "") :=
  ⟨C10_env_guard.1 envNoApiUrl (Or.inl rfl),
   (C10_env_guard.2 envSample _ rfl).2.2.2.2.1,
   (C10_env_guard.2 envSample _ rfl).2.2.2.2.2 "https://titiler.example"
     "titiler.example" reqSample []⟩

end ShipPipeline
